import Mathlib

/-!
Verification of the message-service repository (FastAPI + SQLAlchemy chat
message persistence service).

The embedding models:
* `Message`            — the ORM row (`app/models/message.py`): integer
  autoincrement primary key `id`, `room_id`, `sender`, `content`, and a
  server-assigned `created_at` timestamp (modelled as a `Nat`, e.g. seconds;
  SQLite `CURRENT_TIMESTAMP` has second granularity, so distinct rows can
  share a `created_at`).
* `DB`                 — the durable store: the `messages` table as a list of
  rows in insertion (rowid) order, plus the autoincrement counter.
* `create_message`     — the DAL insert (`app/dal/messages.py`): builds the row
  from exactly `room_id`/`sender`/`content`, lets the store assign `id` and
  `created_at`, appends, and returns the stored row.
* `get_messages_by_room` — the DAL read (`app/dal/messages.py`): a COUNT of
  the room's rows plus a `SELECT ... WHERE room_id = ? ORDER BY created_at ASC
  LIMIT ? OFFSET ?`.  SQL specifies the result of this query only up to the
  order of rows with equal `created_at` (the ORDER BY clause has no tiebreak
  key); `admissibleQueryResult` captures exactly the orders the query may
  return, while `sortByCreatedAt` (a stable insertion sort over insertion
  order) is the deterministic admissible order used for the executable model.
* `get_room_messages`  — the GET endpoint (`app/api/messages.py`), including
  the `total == 0 and offset == 0 → 404` boundary.
* `validateMessageCreate` — the pydantic `MessageCreate` schema
  (`app/schemas/message.py`): required string fields with length bounds;
  unknown body keys are ignored (pydantic default `extra` policy).
* `parsePageParams`    — the FastAPI `Query` validation of `limit`/`offset`
  (`app/api/messages.py`): `limit` defaults to 20 and must lie in [1,100],
  `offset` defaults to 0 and must be ≥ 0.
* `Session` / `dal_create_message_attempt` / `create_message_endpoint_attempt`
  — the transactional create path: `db.add` stages a pending row, `commit`
  atomically publishes all pending rows or fails, the endpoint handler maps a
  `SQLAlchemyError` to a rollback plus a 500 response without retrying.
-/

namespace MessageService

/-- The `messages` ORM row (`app/models/message.py`).  `created_at` is the
server-assigned timestamp, modelled as a `Nat`. -/
structure Message where
  id : Nat
  room_id : String
  sender : String
  content : String
  created_at : Nat
deriving DecidableEq

/-- The validated create payload (pydantic `MessageCreate`): exactly the three
client-supplied fields. -/
structure MessageCreate where
  room_id : String
  sender : String
  content : String
deriving DecidableEq

/-- The durable store: the `messages` table in insertion (rowid) order plus
the autoincrement counter for the integer primary key. -/
structure DB where
  rows : List Message
  nextId : Nat
deriving DecidableEq

/-- `SELECT ... WHERE room_id = ?` without ordering: the room's rows in
insertion order. -/
def messagesInRoom (db : DB) (room : String) : List Message :=
  db.rows.filter (fun m => m.room_id == room)

/-- The DAL's COUNT query: `SELECT count(*) FROM messages WHERE room_id = ?`. -/
def countMessages (db : DB) (room : String) : Nat :=
  (messagesInRoom db room).length

/-- The comparison used by `ORDER BY created_at ASC`. -/
def byCreatedAt : Message → Message → Prop :=
  fun a b => a.created_at ≤ b.created_at

instance : DecidableRel byCreatedAt :=
  fun a b => Nat.decLe a.created_at b.created_at

instance : IsTotal Message byCreatedAt :=
  ⟨fun a b => Nat.le_total a.created_at b.created_at⟩

instance : IsTrans Message byCreatedAt :=
  ⟨fun _ _ _ hab hbc => Nat.le_trans hab hbc⟩

/-- `ORDER BY created_at ASC` specifies the query result only up to the order
of rows with equal `created_at`: a list is an admissible result of the
unlimited query exactly when it is a permutation of the room's rows that is
non-decreasing in `created_at`. -/
def admissibleQueryResult (db : DB) (room : String) (l : List Message) : Prop :=
  l.Perm (messagesInRoom db room) ∧ l.Sorted byCreatedAt

instance (db : DB) (room : String) (l : List Message) :
    Decidable (admissibleQueryResult db room l) :=
  inferInstanceAs (Decidable (l.Perm (messagesInRoom db room) ∧ l.Sorted byCreatedAt))

/-- The ordering the spec claims: non-decreasing `created_at` with ties broken
by ascending `id`. -/
def createdAtThenId : Message → Message → Prop :=
  fun a b => a.created_at < b.created_at ∨ (a.created_at = b.created_at ∧ a.id ≤ b.id)

instance : DecidableRel createdAtThenId := fun a b =>
  inferInstanceAs
    (Decidable (a.created_at < b.created_at ∨ (a.created_at = b.created_at ∧ a.id ≤ b.id)))

/-- A list is in the spec's claimed order when it is `Sorted` for
`createdAtThenId`. -/
def sortedByCreatedAtThenId (l : List Message) : Prop :=
  l.Sorted createdAtThenId

instance (l : List Message) : Decidable (sortedByCreatedAtThenId l) :=
  inferInstanceAs (Decidable (l.Sorted createdAtThenId))

/-- The deterministic admissible order used by the executable model: a stable
insertion sort of the insertion-ordered rows by `created_at`.  For a fixed
store state the engine returns one fixed admissible order; stable sorting over
insertion order is such an order. -/
def sortByCreatedAt (l : List Message) : List Message :=
  l.insertionSort byCreatedAt

/-- The DAL read (`get_messages_by_room` in `app/dal/messages.py`): returns
the `LIMIT limit OFFSET offset` slice of the ordered room query together with
the room's total count. -/
def get_messages_by_room (db : DB) (room : String) (limit offset : Nat) :
    List Message × Nat :=
  (((sortByCreatedAt (messagesInRoom db room)).drop offset).take limit,
    countMessages db room)

/-- The DAL create (`create_message` in `app/dal/messages.py`): the row is
built from exactly the three payload fields, the store assigns `id` (the
autoincrement counter) and `created_at` (the commit-time clock `now`), and the
row is appended to the table.  Returns the stored row and the new state. -/
def create_message (db : DB) (now : Nat) (d : MessageCreate) : Message × DB :=
  let m : Message := ⟨db.nextId, d.room_id, d.sender, d.content, now⟩
  (m, ⟨db.rows ++ [m], db.nextId + 1⟩)

/-- The stable sort is itself an admissible result of the ordered query. -/
theorem sortByCreatedAt_admissible (db : DB) (room : String) :
    admissibleQueryResult db room (sortByCreatedAt (messagesInRoom db room)) :=
  ⟨List.perm_insertionSort byCreatedAt (messagesInRoom db room),
    List.sorted_insertionSort byCreatedAt (messagesInRoom db room)⟩

/-- Errors the API surfaces (`app/api/messages.py`): the 404 of the
`total == 0 and offset == 0` boundary and the 500 raised on
`SQLAlchemyError`. -/
inductive ApiError where
  | roomNotFound
  | serverError
deriving DecidableEq

/-- The body of a 200 response of `GET /api/v1/rooms/{room_id}/messages`
(pydantic `PaginatedMessages`). -/
structure PaginatedMessages where
  items : List Message
  total : Nat
  limit : Nat
  offset : Nat
deriving DecidableEq

/-- The GET endpoint (`get_room_messages` in `app/api/messages.py`), after
FastAPI has validated `limit`/`offset`: call the DAL, raise 404 when
`total == 0 and offset == 0`, otherwise answer with the page and the total. -/
def get_room_messages (db : DB) (room : String) (limit offset : Nat) :
    Except ApiError PaginatedMessages :=
  let res := get_messages_by_room db room limit offset
  if res.2 = 0 ∧ offset = 0 then Except.error ApiError.roomNotFound
  else Except.ok ⟨res.1, res.2, limit, offset⟩

/-- A raw create request body: each declared field is present or missing, and
`extra` holds any unknown keys the client sent (for example `id` or
`created_at`), which pydantic's default `extra` policy ignores. -/
structure RawCreateBody where
  room_id : Option String
  sender : Option String
  content : Option String
  extra : List (String × String)
deriving DecidableEq

/-- A pydantic validation failure (422), tagged with an offending field. -/
inductive ValidationErr where
  | missing (field : String)
  | badLength (field : String)
deriving DecidableEq

/-- The pydantic `MessageCreate` schema (`app/schemas/message.py`): `room_id`
and `sender` are required with `min_length=1, max_length=100`; `content` is
required with `max_length=5000` and no lower bound.  Unknown keys are ignored.
(Pydantic reports all offending fields at once; this model reports the first,
which does not affect acceptance.) -/
def validateMessageCreate (b : RawCreateBody) : Except ValidationErr MessageCreate :=
  match b.room_id with
  | none => Except.error (ValidationErr.missing "room_id")
  | some r =>
    if r.length < 1 ∨ 100 < r.length then Except.error (ValidationErr.badLength "room_id")
    else match b.sender with
      | none => Except.error (ValidationErr.missing "sender")
      | some s =>
        if s.length < 1 ∨ 100 < s.length then Except.error (ValidationErr.badLength "sender")
        else match b.content with
          | none => Except.error (ValidationErr.missing "content")
          | some c =>
            if 5000 < c.length then Except.error (ValidationErr.badLength "content")
            else Except.ok ⟨r, s, c⟩

/-- A FastAPI query-parameter rejection (422). -/
inductive ParamErr where
  | invalidLimit
  | invalidOffset
deriving DecidableEq

/-- The `Query` validation of the GET endpoint (`app/api/messages.py`):
`limit = Query(default=20, ge=1, le=100)`, `offset = Query(default=0, ge=0)`.
`none` is an omitted parameter. -/
def parsePageParams (limitArg offsetArg : Option Int) : Except ParamErr (Int × Int) :=
  let limit := limitArg.getD 20
  let offset := offsetArg.getD 0
  if limit < 1 ∨ 100 < limit then Except.error ParamErr.invalidLimit
  else if offset < 0 then Except.error ParamErr.invalidOffset
  else Except.ok (limit, offset)

/-- An open SQLAlchemy session: the committed table (what readers see), the
rows staged by `db.add` but not yet committed, and the autoincrement counter.
`commit` publishes all pending rows atomically or fails; `rollback` discards
them. -/
structure Session where
  committed : List Message
  pending : List Message
  nextId : Nat
deriving DecidableEq

/-- `db.rollback()`: discard pending rows (the autoincrement counter does not
rewind). -/
def sessionRollback (s : Session) : Session :=
  { s with pending := [] }

/-- The underlying persistence failure (`sqlalchemy.exc.SQLAlchemyError`). -/
inductive StorageErr where
  | sqlalchemyError
deriving DecidableEq

/-- The DAL create on a session (`create_message` in `app/dal/messages.py`)
with the commit outcome made explicit: `db.add` stages the row, then
`db.commit()` either publishes every pending row atomically
(`commitSucceeds = true`) or raises, leaving the committed table untouched
and the row still pending. -/
def dal_create_message_attempt (s : Session) (now : Nat) (d : MessageCreate)
    (commitSucceeds : Bool) : Except StorageErr Message × Session :=
  let m : Message := ⟨s.nextId, d.room_id, d.sender, d.content, now⟩
  let staged : Session := ⟨s.committed, s.pending ++ [m], s.nextId + 1⟩
  if commitSucceeds then
    (Except.ok m, ⟨staged.committed ++ staged.pending, [], staged.nextId⟩)
  else
    (Except.error StorageErr.sqlalchemyError, staged)

/-- The POST endpoint (`create_message_endpoint` in `app/api/messages.py`):
one DAL attempt; on `SQLAlchemyError` it rolls the session back and raises a
500, with no retry and no masking of the failure as success. -/
def create_message_endpoint_attempt (s : Session) (now : Nat) (d : MessageCreate)
    (commitSucceeds : Bool) : Except ApiError Message × Session :=
  match dal_create_message_attempt s now d commitSucceeds with
  | (Except.ok m, s1) => (Except.ok m, s1)
  | (Except.error _, s1) => (Except.error ApiError.serverError, sessionRollback s1)

/-- Claim C4: the validator accepts a create request if and only if `room_id`
and `sender` are present with length 1–100 and `content` is present with
length 0–5000 (the empty string included); any violation, a missing field
included, yields a `ValidationErr` — the result is either a fully validated
payload or an error, never a partial acceptance. -/
theorem validateMessageCreate_accepts_iff (b : RawCreateBody) :
    (∃ d, validateMessageCreate b = Except.ok d) ↔
      ((∃ r, b.room_id = some r ∧ 1 ≤ r.length ∧ r.length ≤ 100) ∧
       (∃ s, b.sender = some s ∧ 1 ≤ s.length ∧ s.length ≤ 100) ∧
       (∃ c, b.content = some c ∧ c.length ≤ 5000)) := by
  obtain ⟨ro, so, co, ex⟩ := b
  cases ro <;> cases so <;> cases co <;>
    simp only [validateMessageCreate] <;>
    (try split_ifs) <;> (try simp_all) <;> omega

/-- Claim C5: the pagination-parameter validation rejects exactly when the
resolved `limit` lies outside [1,100] or the resolved `offset` is negative;
an omitted `limit` resolves to 20 and an omitted `offset` to 0, and an
accepted pair is exactly the resolved values. -/
theorem parsePageParams_spec (limitArg offsetArg : Option Int) :
    ((∃ e, parsePageParams limitArg offsetArg = Except.error e) ↔
      (limitArg.getD 20 < 1 ∨ 100 < limitArg.getD 20 ∨ offsetArg.getD 0 < 0)) ∧
    parsePageParams none none = Except.ok (20, 0) ∧
    (∀ lim off, parsePageParams limitArg offsetArg = Except.ok (lim, off) →
      lim = limitArg.getD 20 ∧ off = offsetArg.getD 0 ∧
        1 ≤ lim ∧ lim ≤ 100 ∧ 0 ≤ off) := by
  refine ⟨?_, rfl, ?_⟩ <;>
    · simp only [parsePageParams]
      split_ifs <;> simp_all <;> omega

/-- A reachable store state: two creates in room "r" within the same clock
second (SQLite's `CURRENT_TIMESTAMP` has second granularity, so equal
`created_at` values are routine). -/
def cexDb : DB :=
  (create_message (create_message ⟨[], 1⟩ 5 ⟨"r", "a", "x"⟩).2 5 ⟨"r", "b", "y"⟩).2

/-- The first stored row of `cexDb`. -/
def cexRowA : Message := ⟨1, "r", "a", "x", 5⟩

/-- The second stored row of `cexDb`. -/
def cexRowB : Message := ⟨2, "r", "b", "y", 5⟩

/-- Claim C1 (counterexample): the room query orders only by `created_at`
(`ORDER BY created_at ASC`, no `id` tiebreak), so after two creates in room
"r" in the same clock second the list `[cexRowB, cexRowA]` — ids 2 then 1 —
is an admissible result of `Page("r", totalCount, 0)`, yet it is not sorted
by `created_at` with ties broken by ascending `id`.  The claimed tie-break is
not guaranteed by the code. -/
theorem page_id_tiebreak_counterexample :
    admissibleQueryResult cexDb "r" [cexRowB, cexRowA] ∧
      ¬ sortedByCreatedAtThenId [cexRowB, cexRowA] := by
  constructor
  · exact ⟨by decide, by decide⟩
  · decide

/-- Claim C1 (amended): every admissible result of the room query is sorted
non-decreasing by `created_at`, as is each of its `LIMIT`/`OFFSET` slices,
and `Page(room, totalCount, 0)` is the whole admissible order — a permutation
of the room's messages; the relative order of messages with equal
`created_at` is left unspecified by the code (its `ORDER BY` has no `id`
tiebreak). -/
theorem page_sorted_by_created_at (db : DB) (room : String) (l : List Message)
    (h : admissibleQueryResult db room l) :
    (∀ limit offset, ((l.drop offset).take limit).Sorted byCreatedAt) ∧
      (l.drop 0).take (countMessages db room) = l ∧
      l.Perm (messagesInRoom db room) := by
  refine ⟨fun limit offset => ?_, ?_, h.1⟩
  · exact List.Pairwise.sublist ((List.take_sublist _ _).trans (List.drop_sublist _ _)) h.2
  · rw [List.drop_zero]
    refine List.take_of_length_le ?_
    rw [h.1.length_eq]
    exact Nat.le_refl _

/-- Witness for the amended claim C1 at a concrete admissible result. -/
theorem page_sorted_by_created_at_witness :
    (∀ limit offset,
        ((List.drop offset [cexRowA, cexRowB]).take limit).Sorted byCreatedAt) ∧
      (List.drop 0 [cexRowA, cexRowB]).take (countMessages cexDb "r") =
        [cexRowA, cexRowB] ∧
      List.Perm [cexRowA, cexRowB] (messagesInRoom cexDb "r") :=
  page_sorted_by_created_at cexDb "r" [cexRowA, cexRowB] ⟨by decide, by decide⟩

/-- Claim C2: on the read path, a room whose count is 0 queried at offset 0
yields the 404 `roomNotFound`; after one message has been created in that
room, the same query (any limit ≥ 1) yields a normal response whose items are
exactly that one stored message, with total 1. -/
theorem not_found_boundary (db : DB) (room sender content : String)
    (now limit : Nat) (hcount : countMessages db room = 0) (hlim : 1 ≤ limit) :
    get_room_messages db room limit 0 = Except.error ApiError.roomNotFound ∧
      get_room_messages (create_message db now ⟨room, sender, content⟩).2 room limit 0 =
        Except.ok ⟨[(create_message db now ⟨room, sender, content⟩).1], 1, limit, 0⟩ := by
  have hnil : messagesInRoom db room = [] := by
    simpa [countMessages, List.length_eq_zero] using hcount
  constructor
  · simp [get_room_messages, get_messages_by_room, hcount]
  · have hfil : messagesInRoom (create_message db now ⟨room, sender, content⟩).2 room =
        [(create_message db now ⟨room, sender, content⟩).1] := by
      simp [messagesInRoom, create_message, List.filter_append]
      simpa [messagesInRoom] using hnil
    have htake : ∀ m : Message, List.take limit [m] = [m] := fun m =>
      List.take_of_length_le (by simpa using hlim)
    simp [get_room_messages, get_messages_by_room, countMessages, hfil,
      sortByCreatedAt, htake]

/-- Witness for claim C2: the empty store, room "r", default limit 20. -/
theorem not_found_boundary_witness :
    get_room_messages ⟨[], 1⟩ "r" 20 0 = Except.error ApiError.roomNotFound ∧
      get_room_messages (create_message ⟨[], 1⟩ 5 ⟨"r", "a", "x"⟩).2 "r" 20 0 =
        Except.ok ⟨[(create_message ⟨[], 1⟩ 5 ⟨"r", "a", "x"⟩).1], 1, 20, 0⟩ :=
  not_found_boundary ⟨[], 1⟩ "r" "a" "x" 5 20 (by decide) (by decide)

/-- Claim C3: for a room with at least one message, any offset at or beyond
the room's count yields a successful response with empty items and the full
total — the 404 branch is not taken and no error is raised. -/
theorem empty_page_beyond_end (db : DB) (room : String) (limit offset : Nat)
    (hpos : 0 < countMessages db room) (hoff : countMessages db room ≤ offset) :
    get_room_messages db room limit offset =
      Except.ok ⟨[], countMessages db room, limit, offset⟩ := by
  have hlen : (sortByCreatedAt (messagesInRoom db room)).length = countMessages db room :=
    (List.perm_insertionSort byCreatedAt (messagesInRoom db room)).length_eq
  have hdrop : (sortByCreatedAt (messagesInRoom db room)).drop offset = [] :=
    List.drop_eq_nil_of_le (by omega)
  have hne : ¬ (countMessages db room = 0 ∧ offset = 0) := by omega
  simp [get_room_messages, get_messages_by_room, hdrop, hne]

/-- Witness for claim C3: one message in room "r", offset 100, limit 10. -/
theorem empty_page_beyond_end_witness :
    get_room_messages (create_message ⟨[], 1⟩ 5 ⟨"r", "a", "x"⟩).2 "r" 10 100 =
      Except.ok ⟨[], countMessages (create_message ⟨[], 1⟩ 5 ⟨"r", "a", "x"⟩).2 "r", 10, 100⟩ :=
  empty_page_beyond_end (create_message ⟨[], 1⟩ 5 ⟨"r", "a", "x"⟩).2 "r" 10 100
    (by decide) (by decide)

/-- Claim C6: for every room, the room's count equals the length of the page
requested with that count as the limit at offset 0. -/
theorem count_consistency (db : DB) (room : String) :
    ((get_messages_by_room db room (countMessages db room) 0).1).length =
      countMessages db room := by
  have hlen : (sortByCreatedAt (messagesInRoom db room)).length = countMessages db room :=
    (List.perm_insertionSort byCreatedAt (messagesInRoom db room)).length_eq
  simp [get_messages_by_room, hlen]

/-- Repeatedly call the DAL page query at offsets 0, limit, 2*limit, ...
until an empty page, concatenating the pages; `fuel` bounds the number of
calls. -/
def collectPagesGo (db : DB) (room : String) (limit : Nat) :
    Nat → Nat → List Message
  | 0, _ => []
  | fuel + 1, offset =>
    let page := (get_messages_by_room db room limit offset).1
    if page = [] then [] else
      page ++ collectPagesGo db room limit fuel (offset + limit)

/-- The concatenation of `Page(room, limit, 0), Page(room, limit, limit), ...`
until an empty page (one call beyond the room's count always suffices as
fuel when `limit ≥ 1`). -/
def collectPages (db : DB) (room : String) (limit : Nat) : List Message :=
  collectPagesGo db room limit (countMessages db room + 1) 0

theorem collectPagesGo_eq_drop (db : DB) (room : String) (limit : Nat)
    (hlim : 0 < limit) (fuel : Nat) :
    ∀ offset,
      (sortByCreatedAt (messagesInRoom db room)).length ≤ offset + fuel * limit →
      collectPagesGo db room limit fuel offset =
        (sortByCreatedAt (messagesInRoom db room)).drop offset := by
  induction fuel with
  | zero =>
    intro offset h
    simp only [collectPagesGo]
    exact (List.drop_eq_nil_of_le (by simpa using h)).symm
  | succ fuel ih =>
    intro offset h
    simp only [collectPagesGo, get_messages_by_room]
    by_cases hp :
        ((sortByCreatedAt (messagesInRoom db room)).drop offset).take limit = []
    · rw [if_pos hp]
      rcases List.take_eq_nil_iff.mp hp with h0 | hnil
      · omega
      · exact hnil.symm
    · rw [if_neg hp]
      rw [ih (offset + limit) (by rw [Nat.succ_mul] at h; omega)]
      rw [← List.drop_drop]
      exact List.take_append_drop limit _

/-- Claim C7: for every room and every limit in [1,100], concatenating the
pages at offsets 0, limit, 2*limit, ... until an empty page yields exactly
`Page(room, totalCount, 0)`, the room's full ordered message sequence — no
duplicates, no omissions. -/
theorem pagination_completeness (db : DB) (room : String) (limit : Nat)
    (h1 : 1 ≤ limit) (h2 : limit ≤ 100) :
    collectPages db room limit =
      (get_messages_by_room db room (countMessages db room) 0).1 := by
  have hlen : (sortByCreatedAt (messagesInRoom db room)).length = countMessages db room :=
    (List.perm_insertionSort byCreatedAt (messagesInRoom db room)).length_eq
  have hfull : (get_messages_by_room db room (countMessages db room) 0).1 =
      sortByCreatedAt (messagesInRoom db room) := by
    simp only [get_messages_by_room, List.drop_zero]
    exact List.take_of_length_le (by omega)
  rw [hfull]
  unfold collectPages
  rw [collectPagesGo_eq_drop db room limit (by omega) (countMessages db room + 1) 0
    (by
      have hmul : countMessages db room + 1 ≤ (countMessages db room + 1) * limit :=
        Nat.le_mul_of_pos_right _ (by omega)
      omega)]
  exact List.drop_zero _

/-- Witness for claim C7: the two-message store `cexDb`, limit 1 (two
non-empty pages, then an empty one). -/
theorem pagination_completeness_witness :
    collectPages cexDb "r" 1 =
      (get_messages_by_room cexDb "r" (countMessages cexDb "r") 0).1 :=
  pagination_completeness cexDb "r" 1 (by decide) (by decide)

/-- Claim C8: when the commit fails with a storage error, the endpoint
surfaces a 500 server error (it does not retry — the handler makes exactly
one DAL attempt — and does not mask the failure as success), the committed
table every reader sees is unchanged, and after the handler's rollback
nothing remains pending, so no part of the write is or can become visible. -/
theorem storage_error_atomic (s : Session) (now : Nat) (d : MessageCreate) :
    (create_message_endpoint_attempt s now d false).1 = Except.error ApiError.serverError ∧
      ((create_message_endpoint_attempt s now d false).2).committed = s.committed ∧
      ((create_message_endpoint_attempt s now d false).2).pending = [] := by
  simp [create_message_endpoint_attempt, dal_create_message_attempt, sessionRollback]

/-- Claim C9: the create path performs no room-existence check — for every
session state it succeeds and returns the stored row, whose shape depends
only on the payload, the autoincrement counter and the clock; after a create
the room's count is the old count plus one, so the room now "exists" (its
count is positive) and a subsequent read of that room never takes the 404
branch, whatever the limit and offset. -/
theorem create_implicit_room (db : DB) (now : Nat) (d : MessageCreate) :
    (∀ s : Session, (dal_create_message_attempt s now d true).1 =
        Except.ok ⟨s.nextId, d.room_id, d.sender, d.content, now⟩) ∧
      countMessages (create_message db now d).2 d.room_id =
        countMessages db d.room_id + 1 ∧
      (∀ limit offset, ∃ p,
        get_room_messages (create_message db now d).2 d.room_id limit offset =
          Except.ok p) := by
  refine ⟨fun s => rfl, ?_, ?_⟩
  · simp [countMessages, messagesInRoom, create_message, List.filter_append]
  · intro limit offset
    have hcount : countMessages (create_message db now d).2 d.room_id =
        countMessages db d.room_id + 1 := by
      simp [countMessages, messagesInRoom, create_message, List.filter_append]
    simp only [get_room_messages]
    rw [if_neg (by simp [get_messages_by_room, hcount])]
    exact ⟨_, rfl⟩

/-- Claim C10: unknown body fields — an attempted client-supplied `id` or
`created_at` included — never influence the create path: two bodies that
agree on `room_id`, `sender` and `content` validate identically, and the
stored record always takes its `id` from the store's autoincrement counter
and its `created_at` from the store clock, the new table being the old one
plus exactly that record. -/
theorem client_fields_ignored (b1 b2 : RawCreateBody) (db : DB) (now : Nat)
    (h1 : b1.room_id = b2.room_id) (h2 : b1.sender = b2.sender)
    (h3 : b1.content = b2.content) :
    validateMessageCreate b1 = validateMessageCreate b2 ∧
      ∀ d : MessageCreate, validateMessageCreate b1 = Except.ok d →
        (create_message db now d).1.id = db.nextId ∧
        (create_message db now d).1.created_at = now ∧
        (create_message db now d).2.rows = db.rows ++ [(create_message db now d).1] := by
  obtain ⟨r1, s1, c1, e1⟩ := b1
  obtain ⟨r2, s2, c2, e2⟩ := b2
  simp only at h1 h2 h3
  subst h1; subst h2; subst h3
  exact ⟨rfl, fun d _ => ⟨rfl, rfl, rfl⟩⟩

/-- Witness for claim C10: a body smuggling `id` and `created_at` keys versus
the same body without them. -/
theorem client_fields_ignored_witness :
    validateMessageCreate
        ⟨some "r", some "a", some "hi", [("id", "999"), ("created_at", "2030-01-01")]⟩ =
      validateMessageCreate ⟨some "r", some "a", some "hi", []⟩ ∧
      ∀ d : MessageCreate,
        validateMessageCreate
            ⟨some "r", some "a", some "hi", [("id", "999"), ("created_at", "2030-01-01")]⟩ =
          Except.ok d →
        (create_message ⟨[], 1⟩ 5 d).1.id = (⟨[], 1⟩ : DB).nextId ∧
        (create_message ⟨[], 1⟩ 5 d).1.created_at = 5 ∧
        (create_message ⟨[], 1⟩ 5 d).2.rows =
          (⟨[], 1⟩ : DB).rows ++ [(create_message ⟨[], 1⟩ 5 d).1] :=
  client_fields_ignored
    ⟨some "r", some "a", some "hi", [("id", "999"), ("created_at", "2030-01-01")]⟩
    ⟨some "r", some "a", some "hi", []⟩ ⟨[], 1⟩ 5 rfl rfl rfl

end MessageService
